import Mathlib

/-!
Shallow embedding of `src/config.rs` of ciel-rs: the `CielConfig` record and
its defaults, the maintainer-identity validator (`validate_maintainer`), the
configuration codec (`save_config`/`load_config`, modelled at the TOML
key-value document level), and the `apply_config` projection of a record onto
a target filesystem tree, modelled as an association list from paths to file
contents.
-/

namespace Ciel

/-- Modelled from the spec: `CURRENT_CIEL_VERSION` is imported from the
`common` module, which is not among the given sources.  The spec only says the
schema revision is a fixed integer constant; no claim depends on its value, so
it is fixed arbitrarily here. -/
def CURRENT_CIEL_VERSION : Nat := 3

/-- Source constant `DEFAULT_APT_SOURCE` (config.rs line 16). -/
def DEFAULT_APT_SOURCE : String := "deb https://repo.aosc.io/debs/ stable main"

/-- Source constant `DEFAULT_AB3_CONFIG_LOCATION` (config.rs line 17), as the
path components that `PathBuf::push` appends. -/
def DEFAULT_AB3_CONFIG_LOCATION : List String :=
  ["usr", "lib", "autobuild3", "etc", "autobuild", "ab3cfg.sh"]

/-- Source constant `DEFAULT_APT_LIST_LOCATION` (config.rs line 18). -/
def DEFAULT_APT_LIST_LOCATION : List String := ["etc", "apt", "sources.list"]

/-- Source constant `DEFAULT_RESOLV_LOCATION` (config.rs line 19). -/
def DEFAULT_RESOLV_LOCATION : List String := ["etc", "systemd", "resolved.conf"]

/-- Source constant `DEFAULT_ACBS_CONFIG` (config.rs line 20). -/
def DEFAULT_ACBS_CONFIG : List String := ["etc", "acbs", "forest.conf"]

/-- The `CielConfig` struct (config.rs lines 22-36).  The serde renames
(`nspawn-extra-options`, `branch-exclusive-output`, `volatile-mount`) and the
`#[serde(default)]` on `volatile_mount` are reflected in
`save_config`/`load_config` below. -/
structure CielConfig where
  version : Nat
  maintainer : String
  dnssec : Bool
  apt_sources : String
  local_repo : Bool
  local_sources : Bool
  extra_options : List String
  sep_mount : Bool
  volatile_mount : Bool
deriving DecidableEq

/-- The `Default` impl for `CielConfig` (config.rs lines 48-62). -/
def CielConfig.default : CielConfig where
  version := CURRENT_CIEL_VERSION
  maintainer := "Bot <null@aosc.io>"
  dnssec := false
  apt_sources := DEFAULT_APT_SOURCE
  local_repo := true
  local_sources := true
  extra_options := []
  sep_mount := true
  volatile_mount := false

/-! ## The maintainer-identity validator -/

/-- The five booleans of the `validate_maintainer` scan (config.rs lines
66-70).  The source's `at` flag is called `seenAt` because `at` is reserved in
Lean. -/
structure FsmState where
  lt : Bool
  gt : Bool
  seenAt : Bool
  name : Bool
  nbsp : Bool
deriving DecidableEq

/-- The all-false initial state of the scan. -/
def initState : FsmState := ⟨false, false, false, false, false⟩

/-- One iteration of the `for c in maintainer.as_bytes()` loop (config.rs
lines 72-105).  The scan is modelled per character rather than per byte: every
byte the source treats specially is ASCII, and each byte of a multi-byte
UTF-8 character takes the default branch exactly as the character itself
does (the default branch is idempotent), so the two scans agree. -/
def mstep (st : FsmState) (c : Char) : Except String FsmState :=
  if c = '<' then
    if !st.nbsp then .error "Please enter a name." else .ok { st with lt := true }
  else if c = '>' then
    if !st.lt then .error "Invalid format." else .ok { st with gt := true }
  else if c = '@' then
    if !st.lt || st.gt then .error "Invalid format." else .ok { st with seenAt := true }
  else if c = ' ' ∨ c = '\t' then
    if !st.name then .error "Please enter a name." else .ok { st with nbsp := true }
  else
    .ok (if !st.nbsp then { st with name := true } else st)

/-- The full left-to-right scan of `validate_maintainer`, returning early on
the first error. -/
def mscan (st : FsmState) : List Char → Except String FsmState
  | [] => .ok st
  | c :: cs =>
    match mstep st c with
    | .error e => .error e
    | .ok st' => mscan st' cs

/-- `validate_maintainer` (config.rs lines 65-112): scan, then require
`name && gt && lt && at`. -/
def validate_maintainer (maintainer : String) : Except String Unit :=
  match mscan initState maintainer.data with
  | .error e => .error e
  | .ok st =>
    if st.name && st.gt && st.lt && st.seenAt then .ok ()
    else .error "Invalid format."

/-! ## Paths and the target filesystem tree -/

/-- A filesystem path: an absolute flag plus the component list, enough to
model `PathBuf::push` with a relative suffix and `Path::parent`. -/
structure FsPath where
  absolute : Bool
  comps : List String
deriving DecidableEq

/-- `PathBuf::push` with a relative multi-component path: append the
components. -/
def FsPath.push (p : FsPath) (rel : List String) : FsPath :=
  ⟨p.absolute, p.comps ++ rel⟩

/-- `Path::parent`: `None` exactly for a root or empty path (no components),
otherwise the path with the last component dropped. -/
def FsPath.parent (p : FsPath) : Option FsPath :=
  match p.comps with
  | [] => none
  | _ :: _ => some ⟨p.absolute, p.comps.dropLast⟩

/-- The error of `apply_config` that this deterministic model can produce:
the `anyhow!("Parent directory is root.")` branch of `create_parent_dir`.
Environment I/O failures are nondeterministic boundary events outside the
model. -/
inductive ApplyError where
  | invalidTarget
deriving DecidableEq

/-- The target tree as an association list from paths to file contents. -/
abbrev FS := List (FsPath × String)

/-- Contents of the file at `p`, if present. -/
def lookupFS : FS → FsPath → Option String
  | [], _ => none
  | (q, c) :: rest, p => if q = p then some c else lookupFS rest p

/-- `File::create` followed by `write_all`: create or truncate-and-replace
the file at `p` with contents `c`. -/
def setFile : FS → FsPath → String → FS
  | [], p, c => [(p, c)]
  | (q, d) :: rest, p, c =>
    if q = p then (p, c) :: rest else (q, d) :: setFile rest p c

/-- `create_parent_dir` (config.rs lines 114-122): fail if the path has no
parent; recursive directory creation itself has no effect on the file map. -/
def create_parent_dir (path : FsPath) : Except ApplyError Unit :=
  match path.parent with
  | none => .error .invalidTarget
  | some _ => .ok ()

/-- `apply_config` (config.rs lines 201-239), as a state transformer of the
target tree: identity file always, `sources.list` only when `apt_sources` is
non-empty, `resolved.conf` only when `dnssec` is false, `forest.conf`
always, in source order. -/
def apply_config (root : FsPath) (config : CielConfig) (fs : FS) :
    Except ApplyError FS := do
  let config_path := root.push DEFAULT_AB3_CONFIG_LOCATION
  let _ ← create_parent_dir config_path
  let fs := setFile fs config_path
    ("#!/bin/bash\nABMPM=dpkg\nABAPMS=\nABINSTALL=dpkg\nMTER=\"" ++ config.maintainer ++ "\"")
  let fs ← if !config.apt_sources.isEmpty then do
      let apt_list_path := root.push DEFAULT_APT_LIST_LOCATION
      let _ ← create_parent_dir apt_list_path
      pure (setFile fs apt_list_path config.apt_sources)
    else pure fs
  let fs ← if !config.dnssec then do
      let resolv_path := root.push DEFAULT_RESOLV_LOCATION
      let _ ← create_parent_dir resolv_path
      pure (setFile fs resolv_path "[Resolve]\nDNSSEC=no\n")
    else pure fs
  let acbs_path := root.push DEFAULT_ACBS_CONFIG
  let _ ← create_parent_dir acbs_path
  pure (setFile fs acbs_path "[default]\nlocation = /tree/\n")

/-! ## The configuration codec

`save_config`/`load_config` (config.rs lines 39-45) delegate to the external
`toml` crate through serde.  Modelled from the spec: the external text layer
is represented at the key-value document level; what the repository itself
determines — the key names (including the serde renames), the required
fields, the `#[serde(default)]` on `volatile-mount`, unknown keys being
ignored and missing required fields being rejected — is embedded directly. -/

/-- A TOML value of one of the shapes this record uses. -/
inductive TomlValue where
  | int (n : Int)
  | str (s : String)
  | bool (b : Bool)
  | arr (xs : List String)
deriving DecidableEq

/-- A TOML document: key-value pairs. -/
abbrev TomlDoc := List (String × TomlValue)

/-- First value bound to `key`, if any. -/
def lookupKey : TomlDoc → String → Option TomlValue
  | [], _ => none
  | (k, v) :: rest, key => if k = key then some v else lookupKey rest key

/-- Remove every binding of `key` (used to state what a document missing a
field means). -/
def eraseKey : TomlDoc → String → TomlDoc
  | [], _ => []
  | (k, v) :: rest, key =>
    if k = key then eraseKey rest key else (k, v) :: eraseKey rest key

/-- `CielConfig::save_config`: serialize every declared field under its
serde key, in declaration order. -/
def CielConfig.save_config (c : CielConfig) : TomlDoc :=
  [("version", .int c.version),
   ("maintainer", .str c.maintainer),
   ("dnssec", .bool c.dnssec),
   ("apt_sources", .str c.apt_sources),
   ("local_repo", .bool c.local_repo),
   ("local_sources", .bool c.local_sources),
   ("nspawn-extra-options", .arr c.extra_options),
   ("branch-exclusive-output", .bool c.sep_mount),
   ("volatile-mount", .bool c.volatile_mount)]

/-- Deserialize a required `usize` field: missing or ill-typed is an error,
and TOML integers are signed so a negative value is rejected. -/
def getNatField (doc : TomlDoc) (key : String) : Except String Nat :=
  match lookupKey doc key with
  | some (.int n) => if n < 0 then .error ("invalid value for " ++ key) else .ok n.toNat
  | some _ => .error ("invalid type for " ++ key)
  | none => .error ("missing field " ++ key)

/-- Deserialize a required string field. -/
def getStrField (doc : TomlDoc) (key : String) : Except String String :=
  match lookupKey doc key with
  | some (.str s) => .ok s
  | some _ => .error ("invalid type for " ++ key)
  | none => .error ("missing field " ++ key)

/-- Deserialize a required boolean field. -/
def getBoolField (doc : TomlDoc) (key : String) : Except String Bool :=
  match lookupKey doc key with
  | some (.bool b) => .ok b
  | some _ => .error ("invalid type for " ++ key)
  | none => .error ("missing field " ++ key)

/-- Deserialize a required string-array field. -/
def getArrField (doc : TomlDoc) (key : String) : Except String (List String) :=
  match lookupKey doc key with
  | some (.arr xs) => .ok xs
  | some _ => .error ("invalid type for " ++ key)
  | none => .error ("missing field " ++ key)

/-- Deserialize a `#[serde(default)]` boolean field: absent means the
default, present-but-ill-typed is still an error. -/
def getBoolFieldOr (doc : TomlDoc) (key : String) (dflt : Bool) : Except String Bool :=
  match lookupKey doc key with
  | some (.bool b) => .ok b
  | some _ => .error ("invalid type for " ++ key)
  | none => .ok dflt

/-- `CielConfig::load_config`: every declared field is required except
`volatile-mount`, which defaults to `false`; keys not among the nine are
ignored. -/
def CielConfig.load_config (doc : TomlDoc) : Except String CielConfig := do
  let version ← getNatField doc "version"
  let maintainer ← getStrField doc "maintainer"
  let dnssec ← getBoolField doc "dnssec"
  let apt_sources ← getStrField doc "apt_sources"
  let local_repo ← getBoolField doc "local_repo"
  let local_sources ← getBoolField doc "local_sources"
  let extra_options ← getArrField doc "nspawn-extra-options"
  let sep_mount ← getBoolField doc "branch-exclusive-output"
  let volatile_mount ← getBoolFieldOr doc "volatile-mount" false
  pure ⟨version, maintainer, dnssec, apt_sources, local_repo, local_sources,
        extra_options, sep_mount, volatile_mount⟩

/-! ## Helper lemmas: paths and the filesystem model -/

theorem FsPath.push_inj {root : FsPath} {a b : List String} :
    root.push a = root.push b ↔ a = b := by
  constructor
  · intro h
    have h' := congrArg FsPath.comps h
    simpa [FsPath.push] using h'
  · intro h; rw [h]

theorem FsPath.push_ne {root : FsPath} {a b : List String} (h : a ≠ b) :
    root.push a ≠ root.push b :=
  fun hc => h (FsPath.push_inj.mp hc)

theorem create_parent_dir_push (root : FsPath) (rel : List String) (h : rel ≠ []) :
    create_parent_dir (root.push rel) = .ok () := by
  unfold create_parent_dir FsPath.parent FsPath.push
  cases hc : root.comps ++ rel with
  | nil => exact absurd (List.append_eq_nil.mp hc).2 h
  | cons x xs => simp

theorem create_parent_dir_ab3 (root : FsPath) :
    create_parent_dir (root.push DEFAULT_AB3_CONFIG_LOCATION) = .ok () :=
  create_parent_dir_push root _ (by simp [DEFAULT_AB3_CONFIG_LOCATION])

theorem create_parent_dir_apt (root : FsPath) :
    create_parent_dir (root.push DEFAULT_APT_LIST_LOCATION) = .ok () :=
  create_parent_dir_push root _ (by simp [DEFAULT_APT_LIST_LOCATION])

theorem create_parent_dir_resolv (root : FsPath) :
    create_parent_dir (root.push DEFAULT_RESOLV_LOCATION) = .ok () :=
  create_parent_dir_push root _ (by simp [DEFAULT_RESOLV_LOCATION])

theorem create_parent_dir_acbs (root : FsPath) :
    create_parent_dir (root.push DEFAULT_ACBS_CONFIG) = .ok () :=
  create_parent_dir_push root _ (by simp [DEFAULT_ACBS_CONFIG])

theorem lookupFS_setFile_same (fs : FS) (p : FsPath) (c : String) :
    lookupFS (setFile fs p c) p = some c := by
  induction fs with
  | nil => simp [setFile, lookupFS]
  | cons hd tl ih =>
    obtain ⟨q, d⟩ := hd
    by_cases h : q = p
    · simp [setFile, lookupFS, h]
    · simp [setFile, lookupFS, h, ih]

theorem lookupFS_setFile_ne (fs : FS) {p q : FsPath} (h : q ≠ p) (c : String) :
    lookupFS (setFile fs q c) p = lookupFS fs p := by
  induction fs with
  | nil => simp [setFile, lookupFS, h]
  | cons hd tl ih =>
    obtain ⟨k, d⟩ := hd
    by_cases hk : k = q
    · subst hk; simp [setFile, lookupFS, h]
    · by_cases hkp : k = p
      · simp [setFile, lookupFS, hk, hkp, Ne.symm h]
      · simp [setFile, lookupFS, hk, hkp, ih]

/-- The pure value `apply_config` computes: identity file, conditional
`sources.list`, conditional `resolved.conf`, `forest.conf`, in that order. -/
def applyFiles (root : FsPath) (config : CielConfig) (fs : FS) : FS :=
  let fs := setFile fs (root.push DEFAULT_AB3_CONFIG_LOCATION)
    ("#!/bin/bash\nABMPM=dpkg\nABAPMS=\nABINSTALL=dpkg\nMTER=\"" ++ config.maintainer ++ "\"")
  let fs := if !config.apt_sources.isEmpty then
      setFile fs (root.push DEFAULT_APT_LIST_LOCATION) config.apt_sources
    else fs
  let fs := if !config.dnssec then
      setFile fs (root.push DEFAULT_RESOLV_LOCATION) "[Resolve]\nDNSSEC=no\n"
    else fs
  setFile fs (root.push DEFAULT_ACBS_CONFIG) "[default]\nlocation = /tree/\n"

theorem apply_config_eq (root : FsPath) (config : CielConfig) (fs : FS) :
    apply_config root config fs = .ok (applyFiles root config fs) := by
  cases h1 : config.apt_sources.isEmpty <;> cases h2 : config.dnssec <;>
    simp [apply_config, applyFiles, h1, h2, create_parent_dir_ab3,
      create_parent_dir_apt, create_parent_dir_resolv, create_parent_dir_acbs,
      bind, Except.bind, pure, Except.pure]

/-! ## Helper lemmas: the validator scan -/

theorem mscan_append (l1 l2 : List Char) (st : FsmState) :
    mscan st (l1 ++ l2) =
      match mscan st l1 with
      | .error e => .error e
      | .ok st' => mscan st' l2 := by
  induction l1 generalizing st with
  | nil => rfl
  | cons c cs ih =>
    show mscan st (c :: (cs ++ l2)) = _
    cases h : mstep st c with
    | error e => simp [mscan, h]
    | ok st' => simp [mscan, h, ih]

/-- A character the scan's default branch handles: none of the five special
characters. -/
def inertChar (c : Char) : Prop :=
  c ≠ '<' ∧ c ≠ '>' ∧ c ≠ '@' ∧ c ≠ ' ' ∧ c ≠ '\t'

theorem mstep_inert {c : Char} (h : inertChar c) (st : FsmState) :
    mstep st c = .ok (if st.nbsp then st else { st with name := true }) := by
  obtain ⟨h1, h2, h3, h4, h5⟩ := h
  cases hn : st.nbsp <;> simp [mstep, h1, h2, h3, h4, h5, hn]

theorem mscan_inert_noNbsp {l : List Char} (hl : ∀ c ∈ l, inertChar c)
    {st : FsmState} (h : st.nbsp = false) (hname : st.name = true) :
    mscan st l = .ok st := by
  induction l with
  | nil => rfl
  | cons c cs ih =>
    have hstep : mstep st c = .ok st := by
      rw [mstep_inert (hl c (by simp)), h]
      obtain ⟨lt, gt, sa, nm, nb⟩ := st
      simp_all
    simp [mscan, hstep, ih (fun d hd => hl d (by simp [hd]))]

theorem mscan_name_part {l : List Char} (hne : l ≠ []) (hl : ∀ c ∈ l, inertChar c) :
    mscan initState l = .ok ⟨false, false, false, true, false⟩ := by
  cases l with
  | nil => exact absurd rfl hne
  | cons c cs =>
    have hstep : mstep initState c = .ok ⟨false, false, false, true, false⟩ := by
      rw [mstep_inert (hl c (by simp))]; rfl
    have hrest : mscan (⟨false, false, false, true, false⟩ : FsmState) cs =
        .ok ⟨false, false, false, true, false⟩ :=
      mscan_inert_noNbsp (fun d hd => hl d (by simp [hd])) rfl rfl
    simp [mscan, hstep, hrest]

theorem mscan_mid {l : List Char} (hl : ∀ c ∈ l, c ≠ ' ' ∧ c ≠ '\t' ∧ c ≠ '>') :
    ∀ st : FsmState, st.name = true → st.nbsp = true → st.lt = true → st.gt = false →
    ∃ st', mscan st l = .ok st' ∧ st'.name = true ∧ st'.nbsp = true ∧
      st'.lt = true ∧ st'.gt = false ∧ (st.seenAt = true → st'.seenAt = true) := by
  induction l with
  | nil => exact fun st h1 h2 h3 h4 => ⟨st, rfl, h1, h2, h3, h4, fun h => h⟩
  | cons c cs ih =>
    intro st h1 h2 h3 h4
    obtain ⟨hsp, htb, hgt⟩ := hl c (by simp)
    have hlcs : ∀ d ∈ cs, d ≠ ' ' ∧ d ≠ '\t' ∧ d ≠ '>' := fun d hd => hl d (by simp [hd])
    by_cases hlt : c = '<'
    · subst hlt
      have hstep : mstep st '<' = .ok { st with lt := true } := by simp [mstep, h2]
      obtain ⟨st', hscan, p1, p2, p3, p4, p5⟩ := ih hlcs { st with lt := true } h1 h2 rfl h4
      exact ⟨st', by simp [mscan, hstep, hscan], p1, p2, p3, p4, fun h => p5 h⟩
    · by_cases hca : c = '@'
      · subst hca
        have hstep : mstep st '@' = .ok { st with seenAt := true } := by
          simp [mstep, h3, h4]
        obtain ⟨st', hscan, p1, p2, p3, p4, p5⟩ :=
          ih hlcs { st with seenAt := true } h1 h2 h3 h4
        exact ⟨st', by simp [mscan, hstep, hscan], p1, p2, p3, p4, fun _ => p5 rfl⟩
      · have hstep : mstep st c = .ok st := by
          rw [mstep_inert ⟨hlt, hgt, hca, hsp, htb⟩, h2]
          simp
        obtain ⟨st', hscan, p1, p2, p3, p4, p5⟩ := ih hlcs st h1 h2 h3 h4
        exact ⟨st', by simp [mscan, hstep, hscan], p1, p2, p3, p4, p5⟩

theorem mscan_no_at_allTrue {l : List Char} (hl : ∀ c ∈ l, c ≠ '@') :
    mscan ⟨true, true, true, true, true⟩ l = .ok ⟨true, true, true, true, true⟩ := by
  induction l with
  | nil => rfl
  | cons c cs ih =>
    have hca : c ≠ '@' := hl c (by simp)
    have hstep : mstep ⟨true, true, true, true, true⟩ c =
        .ok ⟨true, true, true, true, true⟩ := by
      by_cases h1 : c = '<'
      · simp [mstep, h1]
      · by_cases h2 : c = '>'
        · simp [mstep, h1, h2]
        · by_cases h3 : c = ' ' ∨ c = '\t'
          · simp [mstep, h1, h2, hca, h3]
          · simp [mstep, h1, h2, hca, h3]
    simp [mscan, hstep, ih (fun d hd => hl d (by simp [hd]))]

theorem mstep_lt_nbsp {st : FsmState} {c : Char} {st' : FsmState}
    (h : mstep st c = .ok st') (hi : st.lt = true → st.nbsp = true) :
    st'.lt = true → st'.nbsp = true := by
  unfold mstep at h
  split_ifs at h <;> simp_all <;> subst h <;> simp_all

theorem mscan_lt_nbsp {l : List Char} :
    ∀ {st st' : FsmState}, mscan st l = .ok st' →
      (st.lt = true → st.nbsp = true) → (st'.lt = true → st'.nbsp = true) := by
  induction l with
  | nil =>
    intro st st' h hi
    simp [mscan] at h
    subst h; exact hi
  | cons c cs ih =>
    intro st st' h hi
    cases hm : mstep st c with
    | error e => simp [mscan, hm] at h
    | ok st2 =>
      simp only [mscan, hm] at h
      exact ih h (mstep_lt_nbsp hm hi)

theorem validate_ok_state {p : String} (h : validate_maintainer p = .ok ()) :
    mscan initState p.data = .ok ⟨true, true, true, true, true⟩ := by
  unfold validate_maintainer at h
  cases hm : mscan initState p.data with
  | error e => rw [hm] at h; simp at h
  | ok st =>
    have hnb := mscan_lt_nbsp hm (fun hlt => by simp [initState] at hlt)
    rw [hm] at h
    by_cases hc : (st.name && st.gt && st.lt && st.seenAt) = true
    · clear h hm
      obtain ⟨lt, gt, sa, nm, nb⟩ := st
      simp only [Bool.and_eq_true] at hc
      obtain ⟨⟨⟨e1, e2⟩, e3⟩, e4⟩ := hc
      dsimp only at e1 e2 e3 e4 hnb
      subst e1; subst e2; subst e3; subst e4
      rw [hnb rfl]
    · exfalso
      simp [hc] at h

theorem mscan_cons_ok {st st' : FsmState} {c : Char} {cs : List Char}
    (h : mstep st c = .ok st') : mscan st (c :: cs) = mscan st' cs := by
  simp [mscan, h]

/-! ## The claims about the validator -/

/-- Whitespace in the sense of the regex character class: space, tab,
newline, carriage return, vertical tab, form feed. -/
def regexSpace (c : Char) : Bool :=
  c = ' ' || c = '\t' || c = '\n' || c = '\r' || c = '\x0b' || c = '\x0c'

/-- A string matching the spec regex, by explicit decomposition: a nonempty
run of non-whitespace characters, a space, then angle brackets around two
nonempty non-whitespace runs separated by an at sign, then an arbitrary
newline-free tail. -/
def matchesIdentityRegex (s : String) : Prop :=
  ∃ n a b r : String,
    s = n ++ " " ++ "<" ++ a ++ "@" ++ b ++ ">" ++ r ∧
    n ≠ "" ∧ a ≠ "" ∧ b ≠ "" ∧
    (∀ c ∈ n.data, regexSpace c = false) ∧
    (∀ c ∈ a.data, regexSpace c = false) ∧
    (∀ c ∈ b.data, regexSpace c = false) ∧
    (∀ c ∈ r.data, c ≠ '\n')

/-- No embedded control bytes: every character is outside the C0 range and
is not DEL. -/
def noControlBytes (s : String) : Prop :=
  ∀ c ∈ s.data, 32 ≤ c.toNat ∧ c.toNat ≠ 127

/-- C3, counterexample: the string "a@b <x@y.z>" matches the spec regex
(take the name run to be "a@b") and has no control bytes, yet
`validate_maintainer` rejects it, because the at sign inside the name run is
scanned before any open angle bracket.  So the claim as stated is false. -/
theorem C3_counterexample :
    matchesIdentityRegex "a@b <x@y.z>" ∧ noControlBytes "a@b <x@y.z>" ∧
      validate_maintainer "a@b <x@y.z>" = .error "Invalid format." :=
  ⟨⟨"a@b", "x", "y.z", "", by decide, by decide, by decide, by decide,
    by decide, by decide, by decide, by decide⟩,
   by unfold noControlBytes; decide, rfl⟩

/-- C3, amended: for every string of the shape
name, space, open angle, local, at, domain, close angle, tail — where the
name run is nonempty and avoids space, tab and the three special characters,
the local and domain runs are nonempty and avoid space, tab and the close
angle, and the tail contains no at sign — `validate_maintainer` succeeds. -/
theorem C3_amended (n a b r : String)
    (hn : n ≠ "") (_ha : a ≠ "") (_hb : b ≠ "")
    (hnc : ∀ c ∈ n.data, c ≠ ' ' ∧ c ≠ '\t' ∧ c ≠ '<' ∧ c ≠ '>' ∧ c ≠ '@')
    (hac : ∀ c ∈ a.data, c ≠ ' ' ∧ c ≠ '\t' ∧ c ≠ '>')
    (hbc : ∀ c ∈ b.data, c ≠ ' ' ∧ c ≠ '\t' ∧ c ≠ '>')
    (hrc : ∀ c ∈ r.data, c ≠ '@') :
    validate_maintainer (n ++ " " ++ "<" ++ a ++ "@" ++ b ++ ">" ++ r) = .ok () := by
  have hdata : (n ++ " " ++ "<" ++ a ++ "@" ++ b ++ ">" ++ r).data =
      n.data ++ (' ' :: '<' :: (a.data ++ ('@' :: (b.data ++ ('>' :: r.data))))) := by
    simp [String.data_append]
  have hnd : n.data ≠ [] := fun hh => hn (by cases n; simp_all)
  have h1 : mscan initState n.data = .ok ⟨false, false, false, true, false⟩ :=
    mscan_name_part hnd (fun c hc => by
      obtain ⟨p1, p2, p3, p4, p5⟩ := hnc c hc
      exact ⟨p3, p4, p5, p1, p2⟩)
  obtain ⟨st4, h4, q1, q2, q3, q4, _⟩ :=
    mscan_mid hac (⟨true, false, false, true, true⟩ : FsmState) rfl rfl rfl rfl
  have h5 : mstep st4 '@' = .ok { st4 with seenAt := true } := by
    simp [mstep, q3, q4]
  obtain ⟨st6, h6, r1, r2, r3, r4, r5⟩ :=
    mscan_mid hbc { st4 with seenAt := true } q1 q2 q3 q4
  have r5' : st6.seenAt = true := r5 rfl
  have h7 : mstep st6 '>' = .ok { st6 with gt := true } := by
    simp [mstep, r3]
  have h8 : ({ st6 with gt := true } : FsmState) = ⟨true, true, true, true, true⟩ := by
    obtain ⟨l6, g6, s6, n6, b6⟩ := st6
    dsimp only at r1 r2 r3 r5'
    subst r1; subst r2; subst r3; subst r5'
    rfl
  unfold validate_maintainer
  rw [hdata, mscan_append, h1]
  dsimp only
  rw [mscan_cons_ok (rfl :
    mstep ⟨false, false, false, true, false⟩ ' ' = .ok ⟨false, false, false, true, true⟩)]
  rw [mscan_cons_ok (rfl :
    mstep ⟨false, false, false, true, true⟩ '<' = .ok ⟨true, false, false, true, true⟩)]
  rw [mscan_append, h4]
  dsimp only
  rw [mscan_cons_ok h5, mscan_append, h6]
  dsimp only
  rw [mscan_cons_ok h7, h8, mscan_no_at_allTrue hrc]
  rfl

/-- C3, witness: the source's own positive test case, through the amended
theorem. -/
theorem C3_amended_witness :
    validate_maintainer ("test" ++ " " ++ "<" ++ "aosc" ++ "@" ++ "aosc.io" ++ ">" ++ "") =
      .ok () :=
  C3_amended "test" "aosc" "aosc.io" "" (by decide) (by decide) (by decide)
    (by decide) (by decide) (by decide) (by decide)

/-- C4, counterexample: "test <aosc@aosc.io>" validates, but appending
" a@b" after the close angle flips the verdict to an error, because an at
sign scanned after the close angle takes the `gt`-guarded error branch.  So
trailing characters are examined and can invalidate the result. -/
theorem C4_counterexample :
    validate_maintainer "test <aosc@aosc.io>" = .ok () ∧
      validate_maintainer ("test <aosc@aosc.io>" ++ " a@b") = .error "Invalid format." :=
  ⟨rfl, rfl⟩

/-- C4, amended: trailing characters after a successfully validated prefix
never change the verdict provided they contain no at sign; with an at sign
among them the scan fails (see the counterexample). -/
theorem C4_amended (p t : String) (hp : validate_maintainer p = .ok ())
    (ht : ∀ c ∈ t.data, c ≠ '@') :
    validate_maintainer (p ++ t) = .ok () := by
  have hs := validate_ok_state hp
  unfold validate_maintainer
  rw [String.data_append, mscan_append, hs]
  dsimp only
  rw [mscan_no_at_allTrue ht]
  rfl

/-- C4, witness: appending an at-sign-free tail preserves success. -/
theorem C4_amended_witness :
    validate_maintainer ("test <aosc@aosc.io>" ++ " hi") = .ok () :=
  C4_amended "test <aosc@aosc.io>" " hi" rfl (by decide)

/-- C9: the default record's maintainer identity, "Bot <null@aosc.io>",
passes `validate_maintainer`. -/
theorem C9_default_maintainer_valid :
    validate_maintainer CielConfig.default.maintainer = .ok () := rfl

/-! ## The claims about apply_config -/

/-- C1, counterexample: applying the record produced by defaulting to an
empty target tree yields four files, not three, and does create
`etc/apt/sources.list` — because the `Default` impl sets `apt_sources` to
the fixed AOSC source line, not to the empty string the claim assumes. -/
theorem C1_counterexample :
    (apply_config ⟨false, []⟩ CielConfig.default []).map
        (fun fs => (fs.length, lookupFS fs (FsPath.push ⟨false, []⟩ DEFAULT_APT_LIST_LOCATION))) =
      .ok (4, some DEFAULT_APT_SOURCE) := rfl

/-- C1, amended: applying the default record (whose `apt_sources` is the
fixed default source line, hence non-empty) to an empty target tree yields
exactly four files — identity, sources.list, resolver override, forest
location — with these exact contents. -/
theorem C1_amended (root : FsPath) :
    apply_config root CielConfig.default [] = .ok
      [(root.push DEFAULT_AB3_CONFIG_LOCATION,
        "#!/bin/bash\nABMPM=dpkg\nABAPMS=\nABINSTALL=dpkg\nMTER=\"Bot <null@aosc.io>\""),
       (root.push DEFAULT_APT_LIST_LOCATION, DEFAULT_APT_SOURCE),
       (root.push DEFAULT_RESOLV_LOCATION, "[Resolve]\nDNSSEC=no\n"),
       (root.push DEFAULT_ACBS_CONFIG, "[default]\nlocation = /tree/\n")] := by
  rw [apply_config_eq]
  unfold applyFiles
  simp [CielConfig.default, setFile, FsPath.push_inj, DEFAULT_APT_SOURCE,
    DEFAULT_AB3_CONFIG_LOCATION, DEFAULT_APT_LIST_LOCATION, DEFAULT_RESOLV_LOCATION,
    DEFAULT_ACBS_CONFIG]

/-- C5: for every record, target root and prior tree, apply leaves
`etc/systemd/resolved.conf` untouched when `dnssec` is true, and writes it
with exactly the fixed two-line directive when `dnssec` is false. -/
theorem C5_resolved_conf (root : FsPath) (config : CielConfig) (fs fs' : FS)
    (happly : apply_config root config fs = .ok fs') :
    (config.dnssec = true →
      lookupFS fs' (root.push DEFAULT_RESOLV_LOCATION) =
        lookupFS fs (root.push DEFAULT_RESOLV_LOCATION)) ∧
    (config.dnssec = false →
      lookupFS fs' (root.push DEFAULT_RESOLV_LOCATION) = some "[Resolve]\nDNSSEC=no\n") := by
  rw [apply_config_eq] at happly
  injection happly with h
  subst h
  constructor <;> intro hd <;> unfold applyFiles <;>
    cases hapt : config.apt_sources.isEmpty <;>
      simp [hd, hapt, lookupFS_setFile_same, lookupFS_setFile_ne, FsPath.push_inj,
        DEFAULT_AB3_CONFIG_LOCATION, DEFAULT_APT_LIST_LOCATION, DEFAULT_RESOLV_LOCATION,
        DEFAULT_ACBS_CONFIG]

/-- C5, witness: the theorem at the default record (dnssec disabled) on an
empty tree. -/
theorem C5_resolved_conf_witness :
    lookupFS
      [(FsPath.push ⟨false, []⟩ DEFAULT_AB3_CONFIG_LOCATION,
        "#!/bin/bash\nABMPM=dpkg\nABAPMS=\nABINSTALL=dpkg\nMTER=\"Bot <null@aosc.io>\""),
       (FsPath.push ⟨false, []⟩ DEFAULT_APT_LIST_LOCATION, DEFAULT_APT_SOURCE),
       (FsPath.push ⟨false, []⟩ DEFAULT_RESOLV_LOCATION, "[Resolve]\nDNSSEC=no\n"),
       (FsPath.push ⟨false, []⟩ DEFAULT_ACBS_CONFIG, "[default]\nlocation = /tree/\n")]
      (FsPath.push ⟨false, []⟩ DEFAULT_RESOLV_LOCATION) = some "[Resolve]\nDNSSEC=no\n" :=
  (C5_resolved_conf ⟨false, []⟩ CielConfig.default []
    [(FsPath.push ⟨false, []⟩ DEFAULT_AB3_CONFIG_LOCATION,
      "#!/bin/bash\nABMPM=dpkg\nABAPMS=\nABINSTALL=dpkg\nMTER=\"Bot <null@aosc.io>\""),
     (FsPath.push ⟨false, []⟩ DEFAULT_APT_LIST_LOCATION, DEFAULT_APT_SOURCE),
     (FsPath.push ⟨false, []⟩ DEFAULT_RESOLV_LOCATION, "[Resolve]\nDNSSEC=no\n"),
     (FsPath.push ⟨false, []⟩ DEFAULT_ACBS_CONFIG, "[default]\nlocation = /tree/\n")]
    (by rfl)).2 rfl

/-- C6: for every record, target root and prior tree, apply leaves
`etc/apt/sources.list` untouched (neither created nor truncated) when
`apt_sources` is the empty string, and otherwise writes the field's content
verbatim to it. -/
theorem C6_sources_list (root : FsPath) (config : CielConfig) (fs fs' : FS)
    (happly : apply_config root config fs = .ok fs') :
    (config.apt_sources = "" →
      lookupFS fs' (root.push DEFAULT_APT_LIST_LOCATION) =
        lookupFS fs (root.push DEFAULT_APT_LIST_LOCATION)) ∧
    (config.apt_sources ≠ "" →
      lookupFS fs' (root.push DEFAULT_APT_LIST_LOCATION) = some config.apt_sources) := by
  rw [apply_config_eq] at happly
  injection happly with h
  subst h
  constructor <;> intro hd
  · have he : config.apt_sources.isEmpty = true := (String.isEmpty_iff _).mpr hd
    unfold applyFiles
    cases hdn : config.dnssec <;>
      simp [he, hdn, lookupFS_setFile_ne, FsPath.push_inj,
        DEFAULT_AB3_CONFIG_LOCATION, DEFAULT_APT_LIST_LOCATION, DEFAULT_RESOLV_LOCATION,
        DEFAULT_ACBS_CONFIG]
  · have he : config.apt_sources.isEmpty = false := by
      cases hq : config.apt_sources.isEmpty
      · rfl
      · exact absurd ((String.isEmpty_iff _).mp hq) hd
    unfold applyFiles
    cases hdn : config.dnssec <;>
      simp [he, hdn, lookupFS_setFile_same, lookupFS_setFile_ne, FsPath.push_inj,
        DEFAULT_AB3_CONFIG_LOCATION, DEFAULT_APT_LIST_LOCATION, DEFAULT_RESOLV_LOCATION,
        DEFAULT_ACBS_CONFIG]

/-- C6, witness: the theorem at the default record (non-empty sources) on
an empty tree. -/
theorem C6_sources_list_witness :
    lookupFS
      [(FsPath.push ⟨false, []⟩ DEFAULT_AB3_CONFIG_LOCATION,
        "#!/bin/bash\nABMPM=dpkg\nABAPMS=\nABINSTALL=dpkg\nMTER=\"Bot <null@aosc.io>\""),
       (FsPath.push ⟨false, []⟩ DEFAULT_APT_LIST_LOCATION, DEFAULT_APT_SOURCE),
       (FsPath.push ⟨false, []⟩ DEFAULT_RESOLV_LOCATION, "[Resolve]\nDNSSEC=no\n"),
       (FsPath.push ⟨false, []⟩ DEFAULT_ACBS_CONFIG, "[default]\nlocation = /tree/\n")]
      (FsPath.push ⟨false, []⟩ DEFAULT_APT_LIST_LOCATION) = some DEFAULT_APT_SOURCE :=
  (C6_sources_list ⟨false, []⟩ CielConfig.default []
    [(FsPath.push ⟨false, []⟩ DEFAULT_AB3_CONFIG_LOCATION,
      "#!/bin/bash\nABMPM=dpkg\nABAPMS=\nABINSTALL=dpkg\nMTER=\"Bot <null@aosc.io>\""),
     (FsPath.push ⟨false, []⟩ DEFAULT_APT_LIST_LOCATION, DEFAULT_APT_SOURCE),
     (FsPath.push ⟨false, []⟩ DEFAULT_RESOLV_LOCATION, "[Resolve]\nDNSSEC=no\n"),
     (FsPath.push ⟨false, []⟩ DEFAULT_ACBS_CONFIG, "[default]\nlocation = /tree/\n")]
    (by rfl)).2 (by decide)

/-- C7: for every record, target root and prior tree, apply writes
`etc/acbs/forest.conf` with exactly the fixed content and writes the
identity file as the fixed preamble followed by the maintainer identity
interpolated verbatim, whatever the other fields are. -/
theorem C7_fixed_artifacts (root : FsPath) (config : CielConfig) (fs fs' : FS)
    (happly : apply_config root config fs = .ok fs') :
    lookupFS fs' (root.push DEFAULT_ACBS_CONFIG) = some "[default]\nlocation = /tree/\n" ∧
    lookupFS fs' (root.push DEFAULT_AB3_CONFIG_LOCATION) =
      some ("#!/bin/bash\nABMPM=dpkg\nABAPMS=\nABINSTALL=dpkg\nMTER=\""
        ++ config.maintainer ++ "\"") := by
  rw [apply_config_eq] at happly
  injection happly with h
  subst h
  unfold applyFiles
  constructor
  · simp [lookupFS_setFile_same]
  · cases hapt : config.apt_sources.isEmpty <;> cases hdn : config.dnssec <;>
      simp [hapt, hdn, lookupFS_setFile_same, lookupFS_setFile_ne, FsPath.push_inj,
        DEFAULT_AB3_CONFIG_LOCATION, DEFAULT_APT_LIST_LOCATION, DEFAULT_RESOLV_LOCATION,
        DEFAULT_ACBS_CONFIG]

/-- C7, witness: the theorem at the default record on an empty tree,
identity-file half. -/
theorem C7_fixed_artifacts_witness :
    lookupFS
      [(FsPath.push ⟨false, []⟩ DEFAULT_AB3_CONFIG_LOCATION,
        "#!/bin/bash\nABMPM=dpkg\nABAPMS=\nABINSTALL=dpkg\nMTER=\"Bot <null@aosc.io>\""),
       (FsPath.push ⟨false, []⟩ DEFAULT_APT_LIST_LOCATION, DEFAULT_APT_SOURCE),
       (FsPath.push ⟨false, []⟩ DEFAULT_RESOLV_LOCATION, "[Resolve]\nDNSSEC=no\n"),
       (FsPath.push ⟨false, []⟩ DEFAULT_ACBS_CONFIG, "[default]\nlocation = /tree/\n")]
      (FsPath.push ⟨false, []⟩ DEFAULT_AB3_CONFIG_LOCATION) =
      some "#!/bin/bash\nABMPM=dpkg\nABAPMS=\nABINSTALL=dpkg\nMTER=\"Bot <null@aosc.io>\"" :=
  (C7_fixed_artifacts ⟨false, []⟩ CielConfig.default []
    [(FsPath.push ⟨false, []⟩ DEFAULT_AB3_CONFIG_LOCATION,
      "#!/bin/bash\nABMPM=dpkg\nABAPMS=\nABINSTALL=dpkg\nMTER=\"Bot <null@aosc.io>\""),
     (FsPath.push ⟨false, []⟩ DEFAULT_APT_LIST_LOCATION, DEFAULT_APT_SOURCE),
     (FsPath.push ⟨false, []⟩ DEFAULT_RESOLV_LOCATION, "[Resolve]\nDNSSEC=no\n"),
     (FsPath.push ⟨false, []⟩ DEFAULT_ACBS_CONFIG, "[default]\nlocation = /tree/\n")]
    (by rfl)).2

/-- C10: the `InvalidTarget` branch of `create_parent_dir` is unreachable
from `apply_config`: each of the four artifact paths is the target root
joined with a fixed non-empty relative path, so it always has a parent, and
apply never fails in this deterministic model. -/
theorem C10_no_invalid_target (root : FsPath) (config : CielConfig) (fs : FS) :
    (apply_config root config fs).isOk = true ∧
    ∀ rel ∈ [DEFAULT_AB3_CONFIG_LOCATION, DEFAULT_APT_LIST_LOCATION,
        DEFAULT_RESOLV_LOCATION, DEFAULT_ACBS_CONFIG],
      create_parent_dir (root.push rel) = .ok () := by
  refine ⟨by rw [apply_config_eq]; rfl, ?_⟩
  intro rel hrel
  simp only [List.mem_cons, List.mem_singleton, List.not_mem_nil, or_false] at hrel
  rcases hrel with h | h | h | h <;> subst h
  · exact create_parent_dir_ab3 root
  · exact create_parent_dir_apt root
  · exact create_parent_dir_resolv root
  · exact create_parent_dir_acbs root

/-- C10, witness: the theorem at the default record on an empty tree, for
the identity-file path. -/
theorem C10_no_invalid_target_witness :
    (apply_config ⟨false, []⟩ CielConfig.default []).isOk = true ∧
      create_parent_dir (FsPath.push ⟨false, []⟩ DEFAULT_AB3_CONFIG_LOCATION) = .ok () :=
  ⟨(C10_no_invalid_target ⟨false, []⟩ CielConfig.default []).1,
   (C10_no_invalid_target ⟨false, []⟩ CielConfig.default []).2
     DEFAULT_AB3_CONFIG_LOCATION (by simp)⟩

/-! ## The claims about the codec -/

/-- C2: serializing any record and deserializing the result gives back the
same record — in particular when `extra_options` is empty and when
`apt_sources` contains embedded newlines, since every field is stored
verbatim under its own key. -/
theorem C2_roundtrip (c : CielConfig) :
    CielConfig.load_config (CielConfig.save_config c) = .ok c := by
  have hv : ¬((c.version : Int) < 0) := Int.not_lt.mpr (Int.natCast_nonneg _)
  simp [CielConfig.load_config, CielConfig.save_config, getNatField, getStrField,
    getBoolField, getArrField, getBoolFieldOr, lookupKey, hv, Int.toNat_natCast,
    bind, Except.bind, pure, Except.pure]

/-- C8, counterexample: a document missing the required `maintainer` key is
rejected by deserialization instead of succeeding with a default, so the
claim that every absent declared field takes its default is false — only
`volatile-mount` carries a serde default. -/
theorem C8_counterexample :
    CielConfig.load_config (eraseKey (CielConfig.save_config CielConfig.default) "maintainer") =
      .error "missing field maintainer" := rfl

/-- C8, amended: only the `volatile-mount` key takes its declared default
(false) when absent — deserializing any serialized record with that key
removed succeeds and yields the record with `volatile_mount = false`;
any other declared field that is absent makes deserialization fail (see the
counterexample). -/
theorem C8_amended (c : CielConfig) :
    CielConfig.load_config (eraseKey (CielConfig.save_config c) "volatile-mount") =
      .ok { c with volatile_mount := false } := by
  have hv : ¬((c.version : Int) < 0) := Int.not_lt.mpr (Int.natCast_nonneg _)
  simp [CielConfig.load_config, CielConfig.save_config, eraseKey, getNatField, getStrField,
    getBoolField, getArrField, getBoolFieldOr, lookupKey, hv, Int.toNat_natCast,
    bind, Except.bind, pure, Except.pure]

end Ciel
